import Mathlib

/-!
Verification of the SmartMarketWatch enrichment and anomaly-scoring pipeline.

This file gives a shallow embedding of the relevant functions of the
repository sources (src/ai/data_cleaner.py, src/ai/feature_extractor.py,
src/ai/advanced/anomaly_detector.py, src/ai/advanced/pipeline_master.py)
and proves or refutes the frozen claims about them.  Numeric fields are
modelled as exact rationals, absent fields as Option, titles as lists of
characters, and the Python round builtin as round-half-to-even.
-/

namespace SMW

/-! ### Rounding: model of the Python round builtin on rationals -/

/-- Round to the nearest integer, ties to even, as the Python round builtin. -/
def rne (x : ℚ) : ℤ :=
  let f := ⌊x⌋
  if x - f < 1/2 then f
  else if (1 : ℚ)/2 < x - f then f + 1
  else if f % 2 = 0 then f else f + 1

/-- Model of Python round(x, d): round to d decimal places, ties to even. -/
def roundTo (d : ℕ) (x : ℚ) : ℚ := (rne (x * 10 ^ d) : ℚ) / 10 ^ d

/-! ### Decidable atoms for conditions on optional numeric fields

A Python condition of the form notna(o) and o compared with k is modelled
as an existential over the Option value; each atom is decidable. -/

/-- The field is present and at least k. -/
def optGE (o : Option ℚ) (k : ℚ) : Prop := ∃ v, o = some v ∧ k ≤ v

/-- The field is present and at most k. -/
def optLE (o : Option ℚ) (k : ℚ) : Prop := ∃ v, o = some v ∧ v ≤ k

instance : ∀ (o : Option ℚ) (k : ℚ), Decidable (optGE o k)
  | none, _ => isFalse (by simp [optGE])
  | some v, k => decidable_of_iff (k ≤ v) (by simp [optGE])

instance : ∀ (o : Option ℚ) (k : ℚ), Decidable (optLE o k)
  | none, _ => isFalse (by simp [optLE])
  | some v, k => decidable_of_iff (v ≤ k) (by simp [optLE])

/-- The price is present and extreme: below 500 or above 20000. -/
def prixExtreme (prix : Option ℚ) : Prop :=
  ∃ p, prix = some p ∧ (p < 500 ∨ 20000 < p)

instance : ∀ prix : Option ℚ, Decidable (prixExtreme prix)
  | none => isFalse (by simp [prixExtreme])
  | some p => decidable_of_iff (p < 500 ∨ 20000 < p) (by simp [prixExtreme])

/-- The old price is present and positive, and the price ratio is below 0.3. -/
def suspectDiscount (p : ℚ) (ancien : Option ℚ) : Prop :=
  ∃ a, ancien = some a ∧ 0 < a ∧ p / a < 3/10

instance : ∀ (p : ℚ) (ancien : Option ℚ), Decidable (suspectDiscount p ancien)
  | _, none => isFalse (by simp [suspectDiscount])
  | p, some a => decidable_of_iff (0 < a ∧ p / a < 3/10) (by simp [suspectDiscount])

/-! ### Character-list utilities modelling Python string operations -/

/-- Uppercase a title, as the Python str.upper method (ASCII letters). -/
def upStr (s : List Char) : List Char := s.map Char.toUpper

/-- Does the second list start with the first one? -/
def prefixOf : List Char → List Char → Bool
  | [], _ => true
  | _ :: _, [] => false
  | n :: ns, h :: hs => n == h && prefixOf ns hs

/-- Substring containment, as the Python in operator on strings. -/
def containsSub (needle : List Char) : List Char → Bool
  | [] => prefixOf needle []
  | h :: hs => prefixOf needle (h :: hs) || containsSub needle hs

/-- Drop a maximal run of whitespace, as a greedy whitespace star in a pattern. -/
def dropSpaces (s : List Char) : List Char := s.dropWhile Char.isWhitespace

/-- Numeric value of a run of decimal digits. -/
def digitsVal (ds : List Char) : ℕ :=
  ds.foldl (fun n c => 10 * n + (c.toNat - ('0').toNat)) 0

/-! ### data_cleaner.py : brand detection -/

/-- Brand catalog of extraire_marque, in source order. -/
def marques_connues : List String :=
  ["HP", "DELL", "LENOVO", "ASUS", "ACER", "APPLE", "SAMSUNG",
   "MSI", "TOSHIBA", "HUAWEI", "XIAOMI", "MICROSOFT", "LOGITECH"]

/-- Python str.title on a word list (capitalize the first letter of each
alphabetic run, lowercase the rest). -/
def titleCaseGo : Bool → List Char → List Char
  | _, [] => []
  | prevAlpha, c :: cs =>
    (if c.isAlpha then (if prevAlpha then c.toLower else c.toUpper) else c)
      :: titleCaseGo c.isAlpha cs

/-- detecter_marque: first known brand contained in the uppercased title,
title-cased; the string Autre otherwise.  Always returns a string. -/
def detecter_marque (titre : List Char) : String :=
  match marques_connues.find? (fun m => containsSub m.toList (upStr titre)) with
  | some m => String.mk (titleCaseGo false m.toList)
  | none => "Autre"

/-! ### data_cleaner.py : processor-family detection -/

/-- extraire_cpu: substring checks on the uppercased title, higher tiers
first; fallback Autre.  The checks are plain containment, not anchored. -/
def extraire_cpu (titre : List Char) : String :=
  let t := upStr titre
  if containsSub "I9".toList t || containsSub "CORE I9".toList t then "i9"
  else if containsSub "I7".toList t || containsSub "CORE I7".toList t then "i7"
  else if containsSub "I5".toList t || containsSub "CORE I5".toList t then "i5"
  else if containsSub "I3".toList t || containsSub "CORE I3".toList t then "i3"
  else if containsSub "RYZEN 9".toList t then "Ryzen 9"
  else if containsSub "RYZEN 7".toList t then "Ryzen 7"
  else if containsSub "RYZEN 5".toList t then "Ryzen 5"
  else if containsSub "RYZEN 3".toList t then "Ryzen 3"
  else if containsSub "CELERON".toList t then "Celeron"
  else if containsSub "PENTIUM".toList t then "Pentium"
  else "Autre"

/-! ### data_cleaner.py : storage extraction

The three patterns of extraire_stockage, modelled on the uppercased title
(the source compiles them with the ignore-case flag):
digits, whitespace, G, optional B, whitespace, then SSD; the same with
HDD or GO; and digits, whitespace, then one of GB, GO, TB, TO. -/

/-- Tail of the SSD and HDD patterns after the digit group: whitespace star,
G, optional B, whitespace star, then one of the given literals. -/
def tailGB (lits : List (List Char)) (s : List Char) : Bool :=
  match dropSpaces s with
  | 'G' :: s2 =>
    let s3 := match s2 with
      | 'B' :: r => r
      | _ => s2
    lits.any (fun lit => prefixOf lit (dropSpaces s3))
  | _ => false

/-- Tail of the generic unit pattern after the digit group: whitespace star,
then one of GB, GO, TB, TO. -/
def tailUnit (s : List Char) : Bool :=
  let s1 := dropSpaces s
  prefixOf "GB".toList s1 || prefixOf "GO".toList s1 ||
  prefixOf "TB".toList s1 || prefixOf "TO".toList s1

/-- Leftmost search for a digit group followed by a matching tail, as
re.search does for these patterns. -/
def scanStorage (tail : List Char → Bool) : List Char → Option ℕ
  | [] => none
  | c :: cs =>
    if c.isDigit then
      let ds := (c :: cs).takeWhile Char.isDigit
      let rest := (c :: cs).dropWhile Char.isDigit
      if tail rest then some (digitsVal ds) else scanStorage tail cs
    else scanStorage tail cs

/-- The SSD pattern of extraire_stockage. -/
def findSSD (t : List Char) : Option ℕ := scanStorage (tailGB ["SSD".toList]) (upStr t)

/-- The HDD pattern of extraire_stockage (alternatives HDD and GO). -/
def findHDD (t : List Char) : Option ℕ :=
  scanStorage (tailGB ["HDD".toList, "GO".toList]) (upStr t)

/-- The generic unit pattern of extraire_stockage. -/
def findGen (t : List Char) : Option ℕ := scanStorage tailUnit (upStr t)

/-- The TB or TO substring test the generic branch uses to decide the
times-1024 conversion; it looks anywhere in the uppercased title. -/
def hasTBTO (t : List Char) : Bool :=
  containsSub "TB".toList (upStr t) || containsSub "TO".toList (upStr t)

/-- extraire_stockage: try the SSD pattern, then the HDD pattern, then the
generic unit pattern with the times-1024 conversion. -/
def extraire_stockage (t : List Char) : Option ℕ × Option String :=
  match findSSD t with
  | some n => (some n, some "SSD")
  | none =>
    match findHDD t with
    | some n => (some n, some "HDD")
    | none =>
      match findGen t with
      | some n => (some (if hasTBTO t then n * 1024 else n), some "Inconnu")
      | none => (none, none)

/-! ### data_cleaner.py : duplicate removal, completeness, tier -/

/-- supprimer_doublons worker: drop a record whose image key was already
seen, keep the first occurrence otherwise.  The key space is Option String:
pandas drop_duplicates treats missing keys as equal to each other. -/
def dedupGo (seen : List (Option String)) :
    List (Option String × ℕ) → List (Option String × ℕ)
  | [] => []
  | r :: rest =>
    if seen.contains r.1 then dedupGo seen rest
    else r :: dedupGo (r.1 :: seen) rest

/-- supprimer_doublons: drop_duplicates on the image key, keep first. -/
def supprimer_doublons (rs : List (Option String × ℕ)) : List (Option String × ℕ) :=
  dedupGo [] rs

/-- calculer_completude: share of the six-field checklist that is present.
Marque and CPU are produced by detecter_marque and extraire_cpu, which
always return a string, so they always count as present. -/
def calculer_completude (prix : Option ℚ) (_marque _cpu : String)
    (ram stock rating : Option ℚ) : ℚ :=
  let remplis : ℕ :=
    (if prix.isSome then 1 else 0) + 1 + 1 +
    (if ram.isSome then 1 else 0) + (if stock.isSome then 1 else 0) +
    (if rating.isSome then 1 else 0)
  roundTo 1 ((remplis : ℚ) / 6 * 100)

/-- determiner_gamme: tier cascade on price, processor family and memory. -/
def determiner_gamme (prix : Option ℚ) (cpu : String) (ram : Option ℚ) : String :=
  match prix with
  | none => "Non classé"
  | some p =>
    if 5000 < p ∨
       (cpu = "i7" ∨ cpu = "i9" ∨ cpu = "Ryzen 7" ∨ cpu = "Ryzen 9") ∨
       optGE ram 16 then
      "Haut de gamme"
    else if p < 2500 ∨
       (cpu = "Celeron" ∨ cpu = "Pentium" ∨ cpu = "i3") ∨
       optLE ram 4 then
      "Entrée de gamme"
    else "Milieu de gamme"

/-! ### feature_extractor.py : scoring and deal classification -/

/-- The cpu_scores lookup table of calculer_score_performance (default 0). -/
def cpu_scores (c : String) : ℚ :=
  if c = "i9" ∨ c = "Ryzen 9" then 100
  else if c = "i7" ∨ c = "Ryzen 7" then 85
  else if c = "i5" ∨ c = "Ryzen 5" then 60
  else if c = "i3" ∨ c = "Ryzen 3" then 35
  else if c = "Pentium" then 20
  else if c = "Celeron" then 10
  else 0

/-- calculer_score_performance: weighted CPU, RAM, storage and generation
contributions, rounded to one decimal and capped at 100. -/
def calculer_score_performance (cpu : String) (ram stock : Option ℚ)
    (stype : Option String) (gen : Option ℚ) : ℚ :=
  let sCpu := cpu_scores cpu * (4/10)
  let sRam : ℚ := match ram with
    | none => 0
    | some r =>
      if 32 ≤ r then 30 else if 16 ≤ r then 25
      else if 8 ≤ r then 18 else if 4 ≤ r then 10 else 0
  let sStock : ℚ := match stock with
    | none => 0
    | some g =>
      (if 512 ≤ g then 15 else if 256 ≤ g then 10 else if 128 ≤ g then 5 else 0)
      + (if stype = some "SSD" then 5 else 0)
  let sGen : ℚ := match gen with
    | none => 0
    | some g =>
      if 11 ≤ g then 10 else if 8 ≤ g then 7
      else if 6 ≤ g then 4 else if 4 ≤ g then 2 else 0
  min (roundTo 1 (sCpu + sRam + sStock + sGen)) 100

/-- The etat_scores lookup table of calculer_score_qualite (default 0). -/
def etat_scores (e : String) : ℚ :=
  if e = "Neuf" then 10
  else if e = "Remis à neuf" then 7
  else if e = "Occasion" then 4
  else if e = "Non spécifié" then 2
  else 0

/-- calculer_score_qualite: performance, rating, completeness, condition and
reduction contributions, rounded to one decimal and capped at 100. -/
def calculer_score_qualite (perf : ℚ) (rating : Option ℚ) (completude : ℚ)
    (etat : String) (reduction : Option ℚ) : ℚ :=
  let s := perf * (4/10)
    + (match rating with | some r => r / 5 * 30 | none => 0)
    + completude / 100 * 15
    + etat_scores etat
    + (match reduction with
       | some red => if 0 < red then min (red / 20) 5 else 0
       | none => 0)
  min (roundTo 1 s) 100

/-- classifier_affaire: deal classification from the dataset quantiles q75
and q90 of the value ratio, the quality score and the reduction. -/
def classifier_affaire (q75 q90 : ℚ) (rqp : ℚ) (reduction : Option ℚ)
    (score : ℚ) : Bool × String :=
  if q90 ≤ rqp ∧ 70 ≤ score then (true, "Excellente affaire")
  else if q75 ≤ rqp ∧ 60 ≤ score then (true, "Bonne affaire")
  else if optGE reduction 40 ∧ 50 ≤ score then (true, "Promotion intéressante")
  else (false, "Standard")

/-! ### anomaly_detector.py : per-tier statistical price anomalies -/

/-- A record as seen by detect_price_anomalies_statistical. -/
structure PRec where
  gamme : String
  prix : Option ℚ
deriving DecidableEq

/-- Prices present in a given tier, in record order. -/
def tierPrices (rs : List PRec) (g : String) : List ℚ :=
  rs.filterMap (fun s => if s.gamme = g then s.prix else none)

/-- Insertion into a sorted rational list. -/
def insQ (x : ℚ) : List ℚ → List ℚ
  | [] => [x]
  | y :: ys => if x ≤ y then x :: y :: ys else y :: insQ x ys

/-- Ascending insertion sort, as the sort inside the quantile computation. -/
def sortQ : List ℚ → List ℚ
  | [] => []
  | x :: xs => insQ x (sortQ xs)

/-- pandas Series.quantile with linear interpolation on the sorted values. -/
def quantileQ (xs : List ℚ) (q : ℚ) : ℚ :=
  let s := sortQ xs
  let n := s.length
  if n = 0 then 0 else
  let h : ℚ := q * ((n : ℚ) - 1)
  let i : ℕ := ⌊h⌋.toNat
  let g : ℚ := h - (i : ℚ)
  let a := s.getD i 0
  let b := s.getD (i + 1) a
  a + g * (b - a)

/-- Lower Tukey fence Q1 - 1.5 (Q3 - Q1) over a list of prices. -/
def lowerFence (xs : List ℚ) : ℚ :=
  quantileQ xs (1/4) - (3/2) * (quantileQ xs (3/4) - quantileQ xs (1/4))

/-- Upper Tukey fence Q3 + 1.5 (Q3 - Q1) over a list of prices. -/
def upperFence (xs : List ℚ) : ℚ :=
  quantileQ xs (3/4) + (3/2) * (quantileQ xs (3/4) - quantileQ xs (1/4))

/-- The z-score outlier test of the group: absolute population z-score
strictly above 3, written without square roots; a zero variance group
raises no flag (the float comparison against NaN is false). -/
def zOutlier (xs : List ℚ) (x : ℚ) : Bool :=
  let n : ℚ := xs.length
  let mean := xs.sum / n
  let ss := (xs.map (fun y => (y - mean) ^ 2)).sum
  if ss = 0 then false else decide (9 * ss < (x - mean) ^ 2 * n)

/-- detect_price_anomalies_statistical, per record: the masked per-tier
iteration of the source partitions the records by tier, so each record
flags are a function of its own tier group.  Unclassified tiers, absent
prices and tiers with fewer than three priced records keep the
initialisation values false, false, Normal. -/
def statAnomaly (rs : List PRec) (r : PRec) : Bool × Bool × String :=
  if r.gamme = "Non classé" then (false, false, "Normal") else
  match r.prix with
  | none => (false, false, "Normal")
  | some x =>
    let xs := tierPrices rs r.gamme
    if xs.length < 3 then (false, false, "Normal") else
    let zf := zOutlier xs x
    let lo := lowerFence xs
    let hi := upperFence xs
    let iqrf := decide (x < lo) || decide (hi < x)
    let label :=
      if zf || iqrf then
        if x < lo then "Prix anormalement bas (" ++ r.gamme ++ ")"
        else if hi < x then "Prix anormalement élevé (" ++ r.gamme ++ ")"
        else "Anomalie détectée (" ++ r.gamme ++ ")"
      else "Normal"
    (zf, iqrf, label)

/-! ### anomaly_detector.py : rule-based inconsistencies -/

/-- Issue list and additive severity from the six boolean rule conditions,
in source order. -/
def issuesCore (c1 c2 c3 c4 c5 c6 : Bool) : List String × ℤ :=
  ((if c1 then ["Haute perf mais prix bas"] else [])
    ++ (if c2 then ["CPU premium sous-évalué"] else [])
    ++ (if c3 then ["32GB RAM sous-évalué"] else [])
    ++ (if c4 then ["Perf faible mais prix élevé"] else [])
    ++ (if c5 then ["CPU entrée surévalué"] else [])
    ++ (if c6 then ["Réduction suspecte (>70%)"] else []),
   (if c1 then 3 else 0) + (if c2 then 3 else 0) + (if c3 then 2 else 0)
    + (if c4 then 2 else 0) + (if c5 then 2 else 0) + (if c6 then 1 else 0))

/-- The six rule conditions of detect_spec_price_inconsistencies for a
record with present price p. -/
def inconsistency_issues (p : ℚ) (perf : Option ℚ) (cpu : String)
    (ram ancien : Option ℚ) : List String × ℤ :=
  issuesCore
    (decide (optGE perf 80 ∧ p < 3000))
    (decide ((cpu = "i7" ∨ cpu = "i9" ∨ cpu = "Ryzen 7" ∨ cpu = "Ryzen 9") ∧ p < 2500))
    (decide (optGE ram 32 ∧ p < 4000))
    (decide (optLE perf 40 ∧ 4000 < p))
    (decide ((cpu = "Celeron" ∨ cpu = "Pentium") ∧ 3000 < p))
    (decide (suspectDiscount p ancien))

/-- detect_spec_price_inconsistencies, per record: a missing price short
circuits to the label Prix manquant with severity zero; otherwise the rule
cascade runs and the issues are joined with a separator (Cohérent if none). -/
def detect_inconsistency (prix : Option ℚ) (perf : Option ℚ) (cpu : String)
    (ram ancien : Option ℚ) : String × ℤ :=
  match prix with
  | none => ("Prix manquant", 0)
  | some p =>
    let is := inconsistency_issues p perf cpu ram ancien
    ((if is.1.isEmpty then "Cohérent" else String.intercalate " | " is.1), is.2)

/-! ### anomaly_detector.py : suspicion aggregation -/

/-- The sequential flag-and-reasons accumulation of flag_suspicious_products
from the five boolean criteria, in source order. -/
def suspicionCore (c1 c2 c3 c4 c5 : Bool) : Bool × List String :=
  let s1 : Bool × List String := if c1 then (true, ["Anomalie ML"]) else (false, [])
  let s2 := if c2 then (true, s1.2 ++ ["Anomalie prix"]) else s1
  let s3 := if c3 then (true, s2.2 ++ ["Incohérence majeure"]) else s2
  let s4 := if c4 then (true, s3.2 ++ ["Données incomplètes"]) else s3
  if c5 then (true, s4.2 ++ ["Prix extrême"]) else s4

/-- flag_suspicious_products, per record: the five criteria are ML anomaly,
either statistical price anomaly, severity at least 3, completeness below
40, and a present price below 500 or above 20000.  The stored reasons
column is the list joined with a plus separator (OK when empty). -/
def flag_suspicious (ml zsc iqr : Bool) (sev : ℤ) (completude : ℚ)
    (prix : Option ℚ) : Bool × List String :=
  suspicionCore ml (zsc || iqr) (decide (3 ≤ sev)) (decide (completude < 40))
    (decide (prixExtreme prix))

/-! ### pipeline_master.py : confidence index -/

/-- calculate_confidence_index: start from 100, subtract the suspicion and
ML penalties and the completeness shortfall, add the good-deal bonus, round
to one decimal and clamp to the closed interval from 0 to 100. -/
def calculate_confidence_index (suspect ml bonne : Bool) (completude : ℚ) : ℚ :=
  let s0 : ℚ := 100
  let s1 := if suspect then s0 - 30 else s0
  let s2 := if ml then s1 - 20 else s1
  let s3 := s2 - (100 - completude) * (3/10)
  let s4 := if bonne && !suspect then s3 + 10 else s3
  max 0 (min 100 (roundTo 1 s4))

/-! ### Spec-side definitions -/

/-- Modelled from the amended duplicate-filter specification: keep each
list head (the first record of its key, absent and empty keys included)
and drop every later record with the same key. -/
def keepFirstSpec : List (Option String × ℕ) → List (Option String × ℕ)
  | [] => []
  | r :: rest => r :: keepFirstSpec (rest.filter (fun s => !(s.1 == r.1)))
termination_by l => l.length
decreasing_by
  simp only [List.length_cons]
  exact Nat.lt_succ_of_le (List.length_filter_le _ _)

/-- The High tier condition of the specification cascade. -/
def highCond (p : ℚ) (cpu : String) (ram : Option ℚ) : Prop :=
  5000 < p ∨ cpu = "i7" ∨ cpu = "i9" ∨ cpu = "Ryzen 7" ∨ cpu = "Ryzen 9" ∨
    ∃ r, ram = some r ∧ 16 ≤ r

/-- The Entry tier condition of the specification cascade. -/
def entryCond (p : ℚ) (cpu : String) (ram : Option ℚ) : Prop :=
  p < 2500 ∨ cpu = "Celeron" ∨ cpu = "Pentium" ∨ cpu = "i3" ∨
    ∃ r, ram = some r ∧ r ≤ 4

/-! ### Helper lemmas on rounding -/

theorem rne_eq_low (x : ℚ) (z : ℤ) (h1 : (z : ℚ) ≤ x) (h2 : x < (z : ℚ) + 1/2) :
    rne x = z := by
  have hf : ⌊x⌋ = z := Int.floor_eq_iff.mpr ⟨h1, by linarith⟩
  simp only [rne, hf]
  rw [if_pos (by linarith)]

theorem rne_eq_high (x : ℚ) (z : ℤ) (h1 : (z : ℚ) - 1/2 < x) (h2 : x ≤ (z : ℚ)) :
    rne x = z := by
  rcases eq_or_lt_of_le h2 with h | h
  · have hf : ⌊x⌋ = z := Int.floor_eq_iff.mpr ⟨le_of_eq h.symm, by linarith⟩
    simp only [rne, hf]
    rw [if_pos (by linarith)]
  · have hf : ⌊x⌋ = z - 1 := Int.floor_eq_iff.mpr ⟨by push_cast; linarith, by push_cast; linarith⟩
    simp only [rne, hf]
    rw [if_neg (by push_cast; linarith), if_pos (by push_cast; linarith)]
    omega

theorem roundTo_eq (d : ℕ) (x : ℚ) (z : ℤ) (h : rne (x * 10 ^ d) = z) :
    roundTo d x = (z : ℚ) / 10 ^ d := by
  rw [roundTo, h]

theorem rne_nonneg {x : ℚ} (h : 0 ≤ x) : 0 ≤ rne x := by
  have h0 : 0 ≤ ⌊x⌋ := Int.le_floor.mpr (by exact_mod_cast h)
  simp only [rne]
  split_ifs <;> omega

theorem roundTo_nonneg {x : ℚ} (d : ℕ) (h : 0 ≤ x) : 0 ≤ roundTo d x := by
  have : (0 : ℚ) ≤ (rne (x * 10 ^ d) : ℚ) := by
    exact_mod_cast rne_nonneg (mul_nonneg h (by positivity))
  exact div_nonneg this (by positivity)

/-! ### Helper lemmas on the boolean cores -/

theorem suspicionCore_eq (c1 c2 c3 c4 c5 : Bool) :
    suspicionCore c1 c2 c3 c4 c5 =
      ((c1 || c2 || c3 || c4 || c5),
       (if c1 then ["Anomalie ML"] else [])
        ++ (if c2 then ["Anomalie prix"] else [])
        ++ (if c3 then ["Incohérence majeure"] else [])
        ++ (if c4 then ["Données incomplètes"] else [])
        ++ (if c5 then ["Prix extrême"] else [])) := by
  cases c1 <;> cases c2 <;> cases c3 <;> cases c4 <;> cases c5 <;> rfl

theorem suspicionCore_reasons_ne_nil (c1 c2 c3 c4 c5 : Bool) :
    (suspicionCore c1 c2 c3 c4 c5).2 ≠ [] ↔ (suspicionCore c1 c2 c3 c4 c5).1 = true := by
  cases c1 <;> cases c2 <;> cases c3 <;> cases c4 <;> cases c5 <;> decide

theorem suspicionCore_mem_incomplete (c1 c2 c3 c4 c5 : Bool) :
    "Données incomplètes" ∈ (suspicionCore c1 c2 c3 c4 c5).2 ↔ c4 = true := by
  cases c1 <;> cases c2 <;> cases c3 <;> cases c4 <;> cases c5 <;> decide

theorem issuesCore_mem_rule1 (c1 c2 c3 c4 c5 c6 : Bool) :
    "Haute perf mais prix bas" ∈ (issuesCore c1 c2 c3 c4 c5 c6).1 ↔ c1 = true := by
  cases c1 <;> cases c2 <;> cases c3 <;> cases c4 <;> cases c5 <;> cases c6 <;> decide

theorem issuesCore_sev_rule1 (c1 c2 c3 c4 c5 c6 : Bool) (h : c1 = true) :
    3 ≤ (issuesCore c1 c2 c3 c4 c5 c6).2 := by
  subst h
  cases c2 <;> cases c3 <;> cases c4 <;> cases c5 <;> cases c6 <;> decide

theorem flag_of_severity (ml zsc iqr : Bool) {sev : ℤ} (completude : ℚ)
    (prix : Option ℚ) (h : 3 ≤ sev) :
    (flag_suspicious ml zsc iqr sev completude prix).1 = true := by
  rw [flag_suspicious, suspicionCore_eq]
  simp [h]

/-! ### Claim C1 -/

/-- Claim C1: the suspicious flag is true iff at least one of the five
signals holds (ML anomaly, z-score or IQR price flag, inconsistency
severity at least 3, completeness below 40, present price below 500 or
above 20000); the reasons list is the concatenation of the tags of the
signals that fired, in that order, and is non-empty exactly when the flag
is true. -/
theorem C1_suspicious_flag (ml zsc iqr : Bool) (sev : ℤ) (completude : ℚ)
    (prix : Option ℚ) :
    ((flag_suspicious ml zsc iqr sev completude prix).1 = true ↔
      (ml = true ∨ zsc = true ∨ iqr = true ∨ 3 ≤ sev ∨ completude < 40 ∨
        prixExtreme prix))
  ∧ (flag_suspicious ml zsc iqr sev completude prix).2 =
      (if ml then ["Anomalie ML"] else [])
      ++ (if zsc || iqr then ["Anomalie prix"] else [])
      ++ (if 3 ≤ sev then ["Incohérence majeure"] else [])
      ++ (if completude < 40 then ["Données incomplètes"] else [])
      ++ (if prixExtreme prix then ["Prix extrême"] else [])
  ∧ ((flag_suspicious ml zsc iqr sev completude prix).2 ≠ [] ↔
      (flag_suspicious ml zsc iqr sev completude prix).1 = true) := by
  refine ⟨?_, ?_, ?_⟩
  · rw [flag_suspicious, suspicionCore_eq]
    simp [or_assoc]
  · rw [flag_suspicious, suspicionCore_eq]
    simp only [decide_eq_true_eq]
  · rw [flag_suspicious]
    exact suspicionCore_reasons_ne_nil _ _ _ _ _

/-! ### Claim C2 -/

/-- Claim C2 (counterexample): a non-suspicious record whose deal class is
Promo does receive the +10 bonus in the code: with quantiles 100, ratio 10,
reduction 50 and quality 55 the classifier yields the Promo class with the
good-deal boolean true, and the confidence index at completeness 40 is 92,
not the 82 the claimed formula (bonus only for Good or Excellent) gives. -/
theorem C2_counterexample :
    (classifier_affaire 100 100 10 (some 50) 55).2 = "Promotion intéressante"
  ∧ calculate_confidence_index false false
      (classifier_affaire 100 100 10 (some 50) 55).1 40 = 92
  ∧ max (0 : ℚ) (min 100 (100 - 30 * 0 - 20 * 0 - (3/10) * (100 - 40) + 10 * 0)) = 82
  ∧ calculate_confidence_index false false
      (classifier_affaire 100 100 10 (some 50) 55).1 40 ≠
      max (0 : ℚ) (min 100 (100 - 30 * 0 - 20 * 0 - (3/10) * (100 - 40) + 10 * 0)) := by
  have hcl : classifier_affaire 100 100 10 (some 50) 55 = (true, "Promotion intéressante") := by
    rw [classifier_affaire]
    rw [if_neg (by norm_num), if_neg (by norm_num),
        if_pos ⟨⟨50, rfl, by norm_num⟩, by norm_num⟩]
  have hconf : calculate_confidence_index false false true 40 = 92 := by
    rw [calculate_confidence_index]
    norm_num
    rw [roundTo_eq 1 92 920 (rne_eq_low _ 920 (by norm_num) (by norm_num))]
    rw [show ((920 : ℤ) : ℚ) / 10 ^ 1 = 92 by norm_num]
    rw [min_eq_right (by norm_num : (92 : ℚ) ≤ 100), max_eq_right (by norm_num : (0 : ℚ) ≤ 92)]
  refine ⟨by rw [hcl], ?_, by norm_num, ?_⟩
  · rw [hcl]
    exact hconf
  · rw [hcl]
    simp only []
    rw [hconf]
    norm_num

/-- Claim C2 (amended): the confidence index equals the clamped formula
with the raw value rounded to one decimal, where the +10 bonus applies
whenever the good-deal boolean holds and the record is not suspicious; the
good-deal boolean is true exactly for the deal classes Excellent, Good and
Promo, so a non-suspicious Promo record also receives the bonus. -/
theorem C2_confidence_formula (suspect ml bonne : Bool) (completude : ℚ)
    (q75 q90 rqp score : ℚ) (reduction : Option ℚ) :
    calculate_confidence_index suspect ml bonne completude =
      max 0 (min 100 (roundTo 1
        (100 - (if suspect then (30 : ℚ) else 0) - (if ml then (20 : ℚ) else 0)
          - (100 - completude) * (3/10)
          + (if bonne && !suspect then (10 : ℚ) else 0))))
  ∧ ((classifier_affaire q75 q90 rqp reduction score).1 = true ↔
      ((classifier_affaire q75 q90 rqp reduction score).2 = "Excellente affaire"
       ∨ (classifier_affaire q75 q90 rqp reduction score).2 = "Bonne affaire"
       ∨ (classifier_affaire q75 q90 rqp reduction score).2 = "Promotion intéressante")) := by
  constructor
  · have key : ∀ a b : ℚ, a = b →
        max (0:ℚ) (min 100 (roundTo 1 a)) = max 0 (min 100 (roundTo 1 b)) := by
      intro a b h
      rw [h]
    cases suspect <;> cases ml <;> cases bonne <;>
      · simp only [calculate_confidence_index, Bool.and_true, Bool.and_false,
          Bool.not_true, Bool.not_false, if_true, if_false]
        exact key _ _ (by norm_num)
  · rw [classifier_affaire]
    split_ifs <;> simp

/-! ### Claim C5 -/

/-- Claim C5: tier classification is a pure function of price, cpu family
and ram, evaluated as a first-match cascade: absent price gives Non classé;
then price above 5000, a premium cpu or ram at least 16 gives Haut de
gamme; then price below 2500, an entry cpu or present ram at most 4 gives
Entrée de gamme; otherwise Milieu de gamme; re-running on unchanged inputs
yields the same tier. -/
theorem C5_tier_cascade (cpu : String) (ram : Option ℚ) (p : ℚ) :
    determiner_gamme none cpu ram = "Non classé"
  ∧ (determiner_gamme (some p) cpu ram = "Haut de gamme" ↔ highCond p cpu ram)
  ∧ (determiner_gamme (some p) cpu ram = "Entrée de gamme" ↔
      (¬ highCond p cpu ram ∧ entryCond p cpu ram))
  ∧ (determiner_gamme (some p) cpu ram = "Milieu de gamme" ↔
      (¬ highCond p cpu ram ∧ ¬ entryCond p cpu ram))
  ∧ determiner_gamme (some p) cpu ram = determiner_gamme (some p) cpu ram := by
  have hv : determiner_gamme (some p) cpu ram =
      if 5000 < p ∨ (cpu = "i7" ∨ cpu = "i9" ∨ cpu = "Ryzen 7" ∨ cpu = "Ryzen 9") ∨
          optGE ram 16 then "Haut de gamme"
      else if p < 2500 ∨ (cpu = "Celeron" ∨ cpu = "Pentium" ∨ cpu = "i3") ∨
          optLE ram 4 then "Entrée de gamme"
      else "Milieu de gamme" := rfl
  have hH : (5000 < p ∨ (cpu = "i7" ∨ cpu = "i9" ∨ cpu = "Ryzen 7" ∨ cpu = "Ryzen 9") ∨
      optGE ram 16) ↔ highCond p cpu ram := by
    simp [highCond, optGE, or_assoc]
  have hE : (p < 2500 ∨ (cpu = "Celeron" ∨ cpu = "Pentium" ∨ cpu = "i3") ∨
      optLE ram 4) ↔ entryCond p cpu ram := by
    simp [entryCond, optLE, or_assoc]
  by_cases hH1 : highCond p cpu ram
  · have hval : determiner_gamme (some p) cpu ram = "Haut de gamme" := by
      rw [hv, if_pos (hH.mpr hH1)]
    refine ⟨rfl, ?_, ?_, ?_, rfl⟩ <;> rw [hval] <;> simp [hH1]
  · by_cases hE1 : entryCond p cpu ram
    · have hval : determiner_gamme (some p) cpu ram = "Entrée de gamme" := by
        rw [hv, if_neg (fun hc => hH1 (hH.mp hc)), if_pos (hE.mpr hE1)]
      refine ⟨rfl, ?_, ?_, ?_, rfl⟩ <;> rw [hval] <;> simp [hH1, hE1]
    · have hval : determiner_gamme (some p) cpu ram = "Milieu de gamme" := by
        rw [hv, if_neg (fun hc => hH1 (hH.mp hc)), if_neg (fun hc => hE1 (hE.mp hc))]
      refine ⟨rfl, ?_, ?_, ?_, rfl⟩ <;> rw [hval] <;> simp [hH1, hE1]

/-! ### Claim C6: score bounds -/

theorem cpu_scores_nonneg (c : String) : 0 ≤ cpu_scores c := by
  rw [cpu_scores]
  split_ifs <;> norm_num

theorem etat_scores_nonneg (e : String) : 0 ≤ etat_scores e := by
  rw [etat_scores]
  split_ifs <;> norm_num

theorem perf_nonneg (cpu : String) (ram stock : Option ℚ) (stype : Option String)
    (gen : Option ℚ) : 0 ≤ calculer_score_performance cpu ram stock stype gen := by
  have hcs : 0 ≤ cpu_scores cpu * (4/10) :=
    mul_nonneg (cpu_scores_nonneg cpu) (by norm_num)
  rcases ram with _ | r <;> rcases stock with _ | g <;> rcases gen with _ | n <;>
    · simp only [calculer_score_performance]
      refine le_min (roundTo_nonneg _ ?_) (by norm_num)
      refine add_nonneg (add_nonneg (add_nonneg hcs ?_) ?_) ?_ <;>
        first
          | (split_ifs <;> norm_num)
          | norm_num

theorem perf_le_100 (cpu : String) (ram stock : Option ℚ) (stype : Option String)
    (gen : Option ℚ) : calculer_score_performance cpu ram stock stype gen ≤ 100 := by
  simp only [calculer_score_performance]
  exact min_le_right _ _

theorem qualite_nonneg (perf : ℚ) (rating : Option ℚ) (completude : ℚ)
    (etat : String) (reduction : Option ℚ) (hperf : 0 ≤ perf)
    (hr : 0 ≤ rating.getD 0) (hc : 0 ≤ completude) :
    0 ≤ calculer_score_qualite perf rating completude etat reduction := by
  have h1 : 0 ≤ perf * (4/10) := mul_nonneg hperf (by norm_num)
  have h3 : 0 ≤ completude / 100 * 15 :=
    mul_nonneg (div_nonneg hc (by norm_num)) (by norm_num)
  have h4 := etat_scores_nonneg etat
  have hb : ∀ red : ℚ, (0:ℚ) ≤ if 0 < red then min (red / 20) 5 else 0 := by
    intro red
    split_ifs with hred
    · exact le_min (div_nonneg (le_of_lt hred) (by norm_num)) (by norm_num)
    · norm_num
  rcases rating with _ | r
  · rcases reduction with _ | red <;>
      · simp only [calculer_score_qualite]
        refine le_min (roundTo_nonneg _ ?_) (by norm_num)
        first
          | linarith [h1, h3, h4]
          | linarith [h1, h3, h4, hb red]
  · simp only [Option.getD_some] at hr
    have h2 : 0 ≤ r / 5 * 30 := mul_nonneg (div_nonneg hr (by norm_num)) (by norm_num)
    rcases reduction with _ | red <;>
      · simp only [calculer_score_qualite]
        refine le_min (roundTo_nonneg _ ?_) (by norm_num)
        first
          | linarith [h1, h2, h3, h4]
          | linarith [h1, h2, h3, h4, hb red]

theorem qualite_le_100 (perf : ℚ) (rating : Option ℚ) (completude : ℚ)
    (etat : String) (reduction : Option ℚ) :
    calculer_score_qualite perf rating completude etat reduction ≤ 100 := by
  simp only [calculer_score_qualite]
  exact min_le_right _ _

theorem confidence_nonneg (suspect ml bonne : Bool) (completude : ℚ) :
    0 ≤ calculate_confidence_index suspect ml bonne completude := by
  simp only [calculate_confidence_index]
  exact le_max_left _ _

theorem confidence_le_100 (suspect ml bonne : Bool) (completude : ℚ) :
    calculate_confidence_index suspect ml bonne completude ≤ 100 := by
  simp only [calculate_confidence_index]
  exact max_le (by norm_num) (min_le_left _ _)

/-- Claim C6: for every combination of present and absent input fields,
the performance index, the quality score computed from it, and the
confidence index all lie in the closed interval from 0 to 100.  The
hypotheses record the pipeline invariants that a parsed rating and the
completeness percentage are non-negative. -/
theorem C6_scores_bounded (cpu etat : String) (ram stock gen rating reduction : Option ℚ)
    (stype : Option String) (completude : ℚ) (suspect ml bonne : Bool)
    (hr : 0 ≤ rating.getD 0) (hc : 0 ≤ completude) :
    0 ≤ calculer_score_performance cpu ram stock stype gen
  ∧ calculer_score_performance cpu ram stock stype gen ≤ 100
  ∧ 0 ≤ calculer_score_qualite (calculer_score_performance cpu ram stock stype gen)
      rating completude etat reduction
  ∧ calculer_score_qualite (calculer_score_performance cpu ram stock stype gen)
      rating completude etat reduction ≤ 100
  ∧ 0 ≤ calculate_confidence_index suspect ml bonne completude
  ∧ calculate_confidence_index suspect ml bonne completude ≤ 100 :=
  ⟨perf_nonneg cpu ram stock stype gen,
   perf_le_100 cpu ram stock stype gen,
   qualite_nonneg _ rating completude etat reduction
     (perf_nonneg cpu ram stock stype gen) hr hc,
   qualite_le_100 _ rating completude etat reduction,
   confidence_nonneg suspect ml bonne completude,
   confidence_le_100 suspect ml bonne completude⟩

/-- Claim C6 witness: the bounds instantiated at one fully present record
and the hypotheses discharged. -/
theorem C6_witness :
    (0 : ℚ) ≤ (some (9/2 : ℚ)).getD 0 ∧ (0 : ℚ) ≤ 100
  ∧ 0 ≤ calculer_score_performance "i7" (some 16) (some 512) (some "SSD") (some 11)
  ∧ calculer_score_performance "i7" (some 16) (some 512) (some "SSD") (some 11) ≤ 100
  ∧ 0 ≤ calculer_score_qualite
      (calculer_score_performance "i7" (some 16) (some 512) (some "SSD") (some 11))
      (some (9/2)) 100 "Neuf" (some 25)
  ∧ calculer_score_qualite
      (calculer_score_performance "i7" (some 16) (some 512) (some "SSD") (some 11))
      (some (9/2)) 100 "Neuf" (some 25) ≤ 100
  ∧ 0 ≤ calculate_confidence_index false false true 100
  ∧ calculate_confidence_index false false true 100 ≤ 100 := by
  have h := C6_scores_bounded "i7" "Neuf" (some 16) (some 512) (some 11) (some (9/2))
    (some 25) (some "SSD") 100 false false true (by norm_num) (by norm_num)
  exact ⟨by norm_num, by norm_num, h.1, h.2.1, h.2.2.1, h.2.2.2.1, h.2.2.2.2.1, h.2.2.2.2.2⟩

/-! ### Claim C8 -/

/-- Claim C8: with a present price, the rule high performance and low price
fires exactly when the performance index is at least 80 and the price is
below 3000, and then the severity is at least 3; in particular a record
with performance 85 and price 2800 has severity at least 3 and is flagged
suspicious; a record with no price gets the label Prix manquant with
severity 0, skipping the cascade. -/
theorem C8_rule_high_perf_low_price (cpu : String) (perf ram ancien : Option ℚ)
    (p f : ℚ) (ml zsc iqr : Bool) (completude : ℚ) :
    detect_inconsistency none perf cpu ram ancien = ("Prix manquant", 0)
  ∧ ("Haute perf mais prix bas" ∈ (inconsistency_issues p (some f) cpu ram ancien).1 ↔
      (80 ≤ f ∧ p < 3000))
  ∧ (80 ≤ f → p < 3000 →
      3 ≤ (detect_inconsistency (some p) (some f) cpu ram ancien).2)
  ∧ 3 ≤ (detect_inconsistency (some 2800) (some 85) cpu ram ancien).2
  ∧ (flag_suspicious ml zsc iqr
      (detect_inconsistency (some 2800) (some 85) cpu ram ancien).2
      completude (some 2800)).1 = true := by
  have hsev : ∀ q g : ℚ, 80 ≤ g → q < 3000 →
      3 ≤ (detect_inconsistency (some q) (some g) cpu ram ancien).2 := by
    intro q g h1 h2
    have hq : (detect_inconsistency (some q) (some g) cpu ram ancien).2 =
        (inconsistency_issues q (some g) cpu ram ancien).2 := rfl
    rw [hq, inconsistency_issues]
    apply issuesCore_sev_rule1
    simp only [decide_eq_true_eq]
    exact ⟨⟨g, rfl, h1⟩, h2⟩
  refine ⟨rfl, ?_, hsev p f, hsev 2800 85 (by norm_num) (by norm_num), ?_⟩
  · rw [inconsistency_issues, issuesCore_mem_rule1]
    simp [optGE]
  · exact flag_of_severity ml zsc iqr completude (some 2800)
      (hsev 2800 85 (by norm_num) (by norm_num))

/-- Claim C8 witness: the scenario of the claim at a concrete record. -/
theorem C8_witness :
    (80 : ℚ) ≤ 85 ∧ (2800 : ℚ) < 3000
  ∧ 3 ≤ (detect_inconsistency (some 2800) (some 85) "Autre" none none).2
  ∧ (flag_suspicious false false false
      (detect_inconsistency (some 2800) (some 85) "Autre" none none).2
      100 (some 2800)).1 = true := by
  have h := C8_rule_high_perf_low_price "Autre" (some 85) none none 2800 85
    false false false 100
  exact ⟨by norm_num, by norm_num, h.2.2.1 (by norm_num) (by norm_num), h.2.2.2.2⟩

/-! ### Claim C10 -/

theorem completude_ge (prix ram stock rating : Option ℚ) (marque cpu : String) :
    (333/10 : ℚ) ≤ calculer_completude prix marque cpu ram stock rating := by
  rcases prix with _ | p <;> rcases ram with _ | r <;> rcases stock with _ | s <;>
    rcases rating with _ | t
  · rw [calculer_completude]
    norm_num
    rw [roundTo_eq _ _ 333 (rne_eq_low _ 333 (by norm_num) (by norm_num))]
    norm_num
  · rw [calculer_completude]
    norm_num
    rw [roundTo_eq _ _ 500 (rne_eq_low _ 500 (by norm_num) (by norm_num))]
    norm_num
  · rw [calculer_completude]
    norm_num
    rw [roundTo_eq _ _ 500 (rne_eq_low _ 500 (by norm_num) (by norm_num))]
    norm_num
  · rw [calculer_completude]
    norm_num
    rw [roundTo_eq _ _ 667 (rne_eq_high _ 667 (by norm_num) (by norm_num))]
    norm_num
  · rw [calculer_completude]
    norm_num
    rw [roundTo_eq _ _ 500 (rne_eq_low _ 500 (by norm_num) (by norm_num))]
    norm_num
  · rw [calculer_completude]
    norm_num
    rw [roundTo_eq _ _ 667 (rne_eq_high _ 667 (by norm_num) (by norm_num))]
    norm_num
  · rw [calculer_completude]
    norm_num
    rw [roundTo_eq _ _ 667 (rne_eq_high _ 667 (by norm_num) (by norm_num))]
    norm_num
  · rw [calculer_completude]
    norm_num
    rw [roundTo_eq _ _ 833 (rne_eq_low _ 833 (by norm_num) (by norm_num))]
    norm_num
  · rw [calculer_completude]
    norm_num
    rw [roundTo_eq _ _ 500 (rne_eq_low _ 500 (by norm_num) (by norm_num))]
    norm_num
  · rw [calculer_completude]
    norm_num
    rw [roundTo_eq _ _ 667 (rne_eq_high _ 667 (by norm_num) (by norm_num))]
    norm_num
  · rw [calculer_completude]
    norm_num
    rw [roundTo_eq _ _ 667 (rne_eq_high _ 667 (by norm_num) (by norm_num))]
    norm_num
  · rw [calculer_completude]
    norm_num
    rw [roundTo_eq _ _ 833 (rne_eq_low _ 833 (by norm_num) (by norm_num))]
    norm_num
  · rw [calculer_completude]
    norm_num
    rw [roundTo_eq _ _ 667 (rne_eq_high _ 667 (by norm_num) (by norm_num))]
    norm_num
  · rw [calculer_completude]
    norm_num
    rw [roundTo_eq _ _ 833 (rne_eq_low _ 833 (by norm_num) (by norm_num))]
    norm_num
  · rw [calculer_completude]
    norm_num
    rw [roundTo_eq _ _ 833 (rne_eq_low _ 833 (by norm_num) (by norm_num))]
    norm_num
  · rw [calculer_completude]
    norm_num
    rw [roundTo_eq _ _ 1000 (rne_eq_low _ 1000 (by norm_num) (by norm_num))]
    norm_num

theorem completude_lt40_iff (prix ram stock rating : Option ℚ) (marque cpu : String) :
    calculer_completude prix marque cpu ram stock rating < 40 ↔
      (prix = none ∧ ram = none ∧ stock = none ∧ rating = none) := by
  rcases prix with _ | p <;> rcases ram with _ | r <;> rcases stock with _ | s <;>
    rcases rating with _ | t
  · rw [calculer_completude]
    norm_num
    rw [roundTo_eq _ _ 333 (rne_eq_low _ 333 (by norm_num) (by norm_num))]
    norm_num
    try simp
  · rw [calculer_completude]
    norm_num
    rw [roundTo_eq _ _ 500 (rne_eq_low _ 500 (by norm_num) (by norm_num))]
    norm_num
    try simp
  · rw [calculer_completude]
    norm_num
    rw [roundTo_eq _ _ 500 (rne_eq_low _ 500 (by norm_num) (by norm_num))]
    norm_num
    try simp
  · rw [calculer_completude]
    norm_num
    rw [roundTo_eq _ _ 667 (rne_eq_high _ 667 (by norm_num) (by norm_num))]
    norm_num
    try simp
  · rw [calculer_completude]
    norm_num
    rw [roundTo_eq _ _ 500 (rne_eq_low _ 500 (by norm_num) (by norm_num))]
    norm_num
    try simp
  · rw [calculer_completude]
    norm_num
    rw [roundTo_eq _ _ 667 (rne_eq_high _ 667 (by norm_num) (by norm_num))]
    norm_num
    try simp
  · rw [calculer_completude]
    norm_num
    rw [roundTo_eq _ _ 667 (rne_eq_high _ 667 (by norm_num) (by norm_num))]
    norm_num
    try simp
  · rw [calculer_completude]
    norm_num
    rw [roundTo_eq _ _ 833 (rne_eq_low _ 833 (by norm_num) (by norm_num))]
    norm_num
    try simp
  · rw [calculer_completude]
    norm_num
    rw [roundTo_eq _ _ 500 (rne_eq_low _ 500 (by norm_num) (by norm_num))]
    norm_num
    try simp
  · rw [calculer_completude]
    norm_num
    rw [roundTo_eq _ _ 667 (rne_eq_high _ 667 (by norm_num) (by norm_num))]
    norm_num
    try simp
  · rw [calculer_completude]
    norm_num
    rw [roundTo_eq _ _ 667 (rne_eq_high _ 667 (by norm_num) (by norm_num))]
    norm_num
    try simp
  · rw [calculer_completude]
    norm_num
    rw [roundTo_eq _ _ 833 (rne_eq_low _ 833 (by norm_num) (by norm_num))]
    norm_num
    try simp
  · rw [calculer_completude]
    norm_num
    rw [roundTo_eq _ _ 667 (rne_eq_high _ 667 (by norm_num) (by norm_num))]
    norm_num
    try simp
  · rw [calculer_completude]
    norm_num
    rw [roundTo_eq _ _ 833 (rne_eq_low _ 833 (by norm_num) (by norm_num))]
    norm_num
    try simp
  · rw [calculer_completude]
    norm_num
    rw [roundTo_eq _ _ 833 (rne_eq_low _ 833 (by norm_num) (by norm_num))]
    norm_num
    try simp
  · rw [calculer_completude]
    norm_num
    rw [roundTo_eq _ _ 1000 (rne_eq_low _ 1000 (by norm_num) (by norm_num))]
    norm_num
    try simp

/-- Claim C10: brand and cpu family are always present strings, so the
six-field completeness is at least 33.3 (the stored rounding of 2 of 6);
it is below 40 exactly when price, ram, storage and rating are all absent,
and that is exactly when the low-completeness suspicion reason fires. -/
theorem C10_completeness_floor (prix ram stock rating : Option ℚ) (marque cpu : String)
    (ml zsc iqr : Bool) (sev : ℤ) :
    (333/10 : ℚ) ≤ calculer_completude prix marque cpu ram stock rating
  ∧ (calculer_completude prix marque cpu ram stock rating < 40 ↔
      (prix = none ∧ ram = none ∧ stock = none ∧ rating = none))
  ∧ ("Données incomplètes" ∈
      (flag_suspicious ml zsc iqr sev
        (calculer_completude prix marque cpu ram stock rating) prix).2 ↔
      (prix = none ∧ ram = none ∧ stock = none ∧ rating = none)) := by
  refine ⟨completude_ge prix ram stock rating marque cpu,
    completude_lt40_iff prix ram stock rating marque cpu, ?_⟩
  rw [flag_suspicious, suspicionCore_mem_incomplete, decide_eq_true_eq]
  exact completude_lt40_iff prix ram stock rating marque cpu

/-! ### Claim C3 -/

/-- A title mentioning a 256 GB SSD and a 500 GB HDD. -/
def ex3 : List Char := "256GB SSD 500GB HDD".toList

/-- Claim C3 (counterexample): on a title that mentions both an SSD and an
HDD capacity, the code stores only the SSD capacity, not the sum: both
patterns match separately, but the stored storage is 256, not 756. -/
theorem C3_counterexample :
    findSSD ex3 = some 256 ∧ findHDD ex3 = some 500
  ∧ extraire_stockage ex3 = (some 256, some "SSD")
  ∧ (extraire_stockage ex3).1 ≠ some (256 + 500) := by
  refine ⟨by decide, by decide, by decide, by decide⟩

/-- Claim C3 (amended): the SSD and HDD patterns are recognized separately
and tried in order; when the SSD pattern matches, its capacity and type
alone are stored (no summing); when only the HDD pattern matches, its
capacity is stored; otherwise the generic unit pattern applies and the
value is multiplied by 1024 exactly when the substring TB or TO occurs
anywhere in the uppercased title. -/
theorem C3_storage_precedence (t : List Char) :
    (∀ n, findSSD t = some n → extraire_stockage t = (some n, some "SSD"))
  ∧ (findSSD t = none → ∀ n, findHDD t = some n →
      extraire_stockage t = (some n, some "HDD"))
  ∧ (findSSD t = none → findHDD t = none → ∀ n, findGen t = some n →
      extraire_stockage t = (some (if hasTBTO t then n * 1024 else n), some "Inconnu")) := by
  refine ⟨?_, ?_, ?_⟩
  · intro n h
    rw [extraire_stockage, h]
  · intro h0 n h
    rw [extraire_stockage, h0, h]
  · intro h0 h1 n h
    rw [extraire_stockage, h0, h1, h]

/-- Claim C3 witness: the precedence theorem applied at concrete titles. -/
theorem C3_witness :
    extraire_stockage ex3 = (some 256, some "SSD")
  ∧ extraire_stockage ("500GB HDD".toList) = (some 500, some "HDD")
  ∧ extraire_stockage ("LAPTOP 2TB".toList) = (some 2048, some "Inconnu") := by
  refine ⟨(C3_storage_precedence ex3).1 256 (by decide),
          (C3_storage_precedence _).2.1 (by decide) 500 (by decide), ?_⟩
  exact (C3_storage_precedence ("LAPTOP 2TB".toList)).2.2 (by decide) (by decide) 2 (by decide)

/-! ### Claim C4 -/

/-- Claim C4 (counterexample): the title i30 contains no processor token
other than the I3 substring, yet the detected family is i3, not the
fallback Autre: the checks are unanchored substring containment. -/
theorem C4_counterexample :
    extraire_cpu ("i30".toList) = "i3"
  ∧ "i3" ≠ "Autre"
  ∧ containsSub "I9".toList (upStr ("i30".toList)) = false
  ∧ containsSub "I7".toList (upStr ("i30".toList)) = false
  ∧ containsSub "I5".toList (upStr ("i30".toList)) = false
  ∧ containsSub "RYZEN 3".toList (upStr ("i30".toList)) = false := by
  refine ⟨by decide, by decide, by decide, by decide, by decide, by decide⟩

/-- Claim C4 (amended): processor detection checks higher-tier tokens
before lower-tier ones, but each check is plain substring containment on
the uppercased title, without word-boundary anchoring: any title whose
uppercase form contains I3 (or CORE I3) and no higher-tier token is
classified i3, including a title containing only the substring i30. -/
theorem C4_substring_priority (t : List Char)
    (h9 : (containsSub "I9".toList (upStr t) || containsSub "CORE I9".toList (upStr t)) = false)
    (h7 : (containsSub "I7".toList (upStr t) || containsSub "CORE I7".toList (upStr t)) = false)
    (h5 : (containsSub "I5".toList (upStr t) || containsSub "CORE I5".toList (upStr t)) = false)
    (h3 : (containsSub "I3".toList (upStr t) || containsSub "CORE I3".toList (upStr t)) = true) :
    extraire_cpu t = "i3" := by
  simp only [extraire_cpu, h9, h7, h5, h3]
  norm_num

/-- Claim C4 witness: the amended theorem applied at the title i30. -/
theorem C4_witness :
    (containsSub "I9".toList (upStr ("i30".toList)) ||
      containsSub "CORE I9".toList (upStr ("i30".toList))) = false
  ∧ (containsSub "I3".toList (upStr ("i30".toList)) ||
      containsSub "CORE I3".toList (upStr ("i30".toList))) = true
  ∧ extraire_cpu ("i30".toList) = "i3" :=
  ⟨by decide, by decide,
   C4_substring_priority ("i30".toList) (by decide) (by decide) (by decide) (by decide)⟩

/-! ### Claim C9 -/

theorem filterTwice {α : Type} (p q : α → Bool) (l : List α) :
    (l.filter p).filter q = l.filter (fun a => p a && q a) := by
  induction l with
  | nil => rfl
  | cons x xs ih =>
    by_cases hp : p x <;> by_cases hq : q x <;>
      simp [List.filter_cons, hp, hq, ih]

theorem dedupGo_eq_keepFirst (l : List (Option String × ℕ)) :
    ∀ seen, dedupGo seen l = keepFirstSpec (l.filter (fun r => !(seen.contains r.1))) := by
  induction l with
  | nil =>
    intro seen
    simp [dedupGo, keepFirstSpec]
  | cons r rest ih =>
    intro seen
    cases hs : seen.contains r.1
    · simp only [dedupGo, hs, List.filter_cons, Bool.not_false, if_true,
        Bool.false_eq_true, if_false]
      rw [ih (r.1 :: seen), keepFirstSpec]
      have hfilter : (rest.filter fun s => !(seen.contains s.1)).filter
            (fun s => !(s.1 == r.1)) =
          rest.filter (fun s => !((r.1 :: seen).contains s.1)) := by
        rw [filterTwice]
        apply List.filter_congr
        intro a _
        rw [List.contains_cons, Bool.not_or, Bool.and_comm]
      rw [hfilter]
    · simp only [dedupGo, hs, List.filter_cons, Bool.not_true, if_true,
        Bool.false_eq_true, if_false]
      exact ih seen

/-- Claim C9 (counterexample): the duplicate filter also deduplicates
records whose image key is absent, and records whose image key is the
empty string: in both two-record lists below only the first record
survives, while the claim says such records are never deduplicated
against each other. -/
theorem C9_counterexample :
    supprimer_doublons [((none : Option String), 0), (none, 1)] = [(none, 0)]
  ∧ supprimer_doublons [((some "" : Option String), 0), (some "", 1)] = [(some "", 0)] := by
  exact ⟨by decide, by decide⟩

/-- Claim C9 (amended): the duplicate filter keeps, for each distinct
image-reference key - where the absent key and the empty-string key each
count as one key value - exactly the first record in input order with that
key and removes the later ones. -/
theorem C9_keep_first_per_key (l : List (Option String × ℕ)) :
    supprimer_doublons l = keepFirstSpec l := by
  rw [supprimer_doublons, dedupGo_eq_keepFirst l []]
  congr 1
  simp

/-! ### Claim C7 -/

/-- Claim C7: statistical price anomaly detection works per tier, and only
on tiers with at least 3 priced records: a record whose tier has fewer
priced records (in particular exactly 2), an unpriced record, or an
unclassified record keeps the default flags false, false with label
Normal, and this raises no error (the function is total); within a tier of
at least 3 priced records the z-score flag and the Tukey IQR-fence flag
are computed independently over the tier prices, and the direction label
(abnormally low or high) is assigned from the IQR fences. -/
theorem C7_statistical_per_tier (rs : List PRec) (r : PRec) (x : ℚ) :
    ((tierPrices rs r.gamme).length < 3 → statAnomaly rs r = (false, false, "Normal"))
  ∧ (r.prix = none → statAnomaly rs r = (false, false, "Normal"))
  ∧ (r.gamme ≠ "Non classé" → r.prix = some x → 3 ≤ (tierPrices rs r.gamme).length →
      ((statAnomaly rs r).1 = zOutlier (tierPrices rs r.gamme) x
       ∧ (statAnomaly rs r).2.1 =
           (decide (x < lowerFence (tierPrices rs r.gamme)) ||
            decide (upperFence (tierPrices rs r.gamme) < x))
       ∧ ((statAnomaly rs r).1 = false → (statAnomaly rs r).2.1 = false →
           (statAnomaly rs r).2.2 = "Normal")
       ∧ (x < lowerFence (tierPrices rs r.gamme) →
           (statAnomaly rs r).2.2 = "Prix anormalement bas (" ++ r.gamme ++ ")")
       ∧ (lowerFence (tierPrices rs r.gamme) ≤ x →
           upperFence (tierPrices rs r.gamme) < x →
           (statAnomaly rs r).2.2 = "Prix anormalement élevé (" ++ r.gamme ++ ")"))) := by
  refine ⟨?_, ?_, ?_⟩
  · intro hlen
    rw [statAnomaly]
    by_cases hg : r.gamme = "Non classé"
    · rw [if_pos hg]
    · rw [if_neg hg]
      rcases hp : r.prix with _ | y
      · rfl
      · simp only [if_pos hlen]
  · intro hp
    rw [statAnomaly, hp]
    by_cases hg : r.gamme = "Non classé"
    · rw [if_pos hg]
    · rw [if_neg hg]
  · intro hg hp hlen
    have hval : statAnomaly rs r =
        (zOutlier (tierPrices rs r.gamme) x,
         decide (x < lowerFence (tierPrices rs r.gamme)) ||
           decide (upperFence (tierPrices rs r.gamme) < x),
         if (zOutlier (tierPrices rs r.gamme) x ||
             (decide (x < lowerFence (tierPrices rs r.gamme)) ||
              decide (upperFence (tierPrices rs r.gamme) < x))) then
           (if x < lowerFence (tierPrices rs r.gamme) then
              "Prix anormalement bas (" ++ r.gamme ++ ")"
            else if upperFence (tierPrices rs r.gamme) < x then
              "Prix anormalement élevé (" ++ r.gamme ++ ")"
            else "Anomalie détectée (" ++ r.gamme ++ ")")
         else "Normal") := by
      obtain ⟨g, prix⟩ := r
      dsimp only at hg hp hlen ⊢
      subst hp
      rw [statAnomaly]
      dsimp only
      rw [if_neg hg, if_neg (not_lt.mpr hlen)]
    rw [hval]
    refine ⟨rfl, rfl, ?_, ?_, ?_⟩
    · intro hz hiq
      have hz' : zOutlier (tierPrices rs r.gamme) x = false := hz
      have hiq' : (decide (x < lowerFence (tierPrices rs r.gamme)) ||
          decide (upperFence (tierPrices rs r.gamme) < x)) = false := hiq
      show (if _ then _ else "Normal") = "Normal"
      simp [hz', hiq']
    · intro hlt
      show (if _ then _ else "Normal") = _
      simp [hlt]
    · intro hge hgt
      show (if _ then _ else "Normal") = _
      simp [hgt, not_lt.mpr hge]

/-- The record list of the C7 witness: one tier with two priced records
and one tier with three priced records. -/
def rs7 : List PRec :=
  [⟨"Entrée de gamme", some 100⟩, ⟨"Entrée de gamme", some 200⟩,
   ⟨"Milieu de gamme", some 10⟩, ⟨"Milieu de gamme", some 12⟩,
   ⟨"Milieu de gamme", some 2000⟩]

/-- Claim C7 witness: the per-tier theorem applied at a concrete dataset
with a two-record tier (no flags, no error) and a three-record tier. -/
theorem C7_witness :
    (tierPrices rs7 "Entrée de gamme").length < 3
  ∧ statAnomaly rs7 ⟨"Entrée de gamme", some 100⟩ = (false, false, "Normal")
  ∧ ("Milieu de gamme" : String) ≠ "Non classé"
  ∧ 3 ≤ (tierPrices rs7 "Milieu de gamme").length
  ∧ (statAnomaly rs7 ⟨"Milieu de gamme", some 2000⟩).1 =
      zOutlier (tierPrices rs7 "Milieu de gamme") 2000 := by
  refine ⟨by decide, ?_, by decide, by decide, ?_⟩
  · exact (C7_statistical_per_tier rs7 ⟨"Entrée de gamme", some 100⟩ 0).1 (by decide)
  · exact ((C7_statistical_per_tier rs7 ⟨"Milieu de gamme", some 2000⟩ 2000).2.2
      (by decide) rfl (by decide)).1

end SMW
